import Mathlib

/-!
Shallow embedding of the attachment subsystem of a Jira command-line
client, together with proofs about its observable behavior.

Conventions of the embedding:
* Go strings are modelled as Lean `String` (a sequence of characters);
  the characters the code inspects (`,`, `"`, `\n`) are ASCII, so the
  byte-level and rune-level views of the Go code coincide.
* Go `int64` is modelled as `Int`.
* Effects (file system, HTTP transport, JSON decoding by the standard
  library) are modelled by explicit parameters carrying their outcome:
  an HTTP response is its status code plus the observable results of
  reading its body; a fallible call is an `Except`.
* `fmt.Sprintf "%.2f"` on `float64(b)/2^k`: conversion of `b < 2^53`
  to `float64` is exact and division by a power of two never rounds,
  so the printed value is the exact rational `b / 2^k` rounded to two
  decimal digits with ties to even (Go's `strconv` formats from the
  exact binary value, rounding half to even). The embedding computes
  that rational rounding directly over `Nat`.
-/

namespace JiraCli

/-- ASCII double-quote character. -/
def dquote : Char := Char.ofNat 34

/-- ASCII line-feed character. -/
def newline : Char := Char.ofNat 10

/-! ## Data model -/

/-- Author of an attachment (`jira.User`): display name and account id. -/
structure User where
  displayName : String
  accountId : String
deriving DecidableEq, Repr

/-- Attachment metadata record (`jira.Attachment`). -/
structure Attachment where
  id : String
  filename : String
  author : User
  created : String
  size : Int
  mimeType : String
  content : String
deriving DecidableEq, Repr

/-! ## RenderEngine (list command, `part_000`) -/

/-- `containsSpecialChar`: reports whether the string contains a comma,
a double quote, or a newline. The Go source iterates the runes with an
early return; `List.any` is the same computation. -/
def containsSpecialChar (s : String) : Bool :=
  s.data.any (fun ch => ch = ',' || ch = dquote || ch = newline)

/-- `escapeCSV`: wrap the string in double quotes when it contains a
special character, otherwise return it unmodified. Interior quotes are
not doubled (as in the source). -/
def escapeCSV (s : String) : String :=
  if containsSpecialChar s then
    String.singleton dquote ++ s ++ String.singleton dquote
  else s

/-- `formatDate`: if the string is longer than 10 characters, keep the
first 10; otherwise return it unchanged (`date[:10]` in the source). -/
def formatDate (date : String) : String :=
  if date.length > 10 then date.take 10 else date

/-- Round `n / d` to the nearest integer, ties to even
(the rounding Go's `strconv` applies when printing the exact value of
a binary float with a fixed number of decimals). Requires `0 < d`. -/
def roundHalfEven (n d : Nat) : Nat :=
  let q := n / d
  let r := n % d
  if 2 * r < d then q
  else if d < 2 * r then q + 1
  else if q % 2 = 0 then q else q + 1

/-- Print the rational `b / d` with exactly two decimal digits, as
`fmt.Sprintf "%.2f"` does on the exactly-represented quotient. -/
def twoDecimals (b d : Nat) : String :=
  let scaled := roundHalfEven (100 * b) d
  let ip := scaled / 100
  let fp := scaled % 100
  toString ip ++ "." ++ (if fp < 10 then "0" ++ toString fp else toString fp)

/-- `formatSize`: binary-step human-readable byte count
(`>= GB` / `>= MB` / `>= KB` cascade from the source, with `%d B`
as the default branch). -/
def formatSize (bytes : Int) : String :=
  if bytes ≥ 1073741824 then twoDecimals bytes.toNat 1073741824 ++ " GB"
  else if bytes ≥ 1048576 then twoDecimals bytes.toNat 1048576 ++ " MB"
  else if bytes ≥ 1024 then twoDecimals bytes.toNat 1024 ++ " KB"
  else toString bytes ++ " B"

/-- `renderCSV`: header line then one CSV line per attachment, written
sequentially to the writer; the writer's accumulated output is modelled
by a left fold over the sequence. -/
def renderCSV (attachments : List Attachment) : String :=
  attachments.foldl
    (fun acc a =>
      acc ++ a.id ++ "," ++ escapeCSV a.filename ++ "," ++ toString a.size
        ++ "," ++ escapeCSV a.author.displayName ++ "," ++ a.created ++ "\n")
    "ID,FILENAME,SIZE,AUTHOR,CREATED\n"

/-! Spec-side restatements used for refinement claims. -/

/-- Restatement of the spec's description of `formatSize` by threshold
ranges (`< 1024` bytes; then KB, MB, GB at 1024-steps). -/
def formatSizeSpec (bytes : Int) : String :=
  if bytes < 1024 then toString bytes ++ " B"
  else if bytes < 1048576 then twoDecimals bytes.toNat 1024 ++ " KB"
  else if bytes < 1073741824 then twoDecimals bytes.toNat 1048576 ++ " MB"
  else twoDecimals bytes.toNat 1073741824 ++ " GB"

/-- Restatement of the spec's description of one CSV data line: raw id,
escaped filename, raw integer size, escaped author display name, raw
created timestamp. -/
def csvLineSpec (a : Attachment) : String :=
  a.id ++ "," ++ escapeCSV a.filename ++ "," ++ toString a.size
    ++ "," ++ escapeCSV a.author.displayName ++ "," ++ a.created ++ "\n"

/-! ## Error taxonomy of the client (`pkg/jira`)

`ErrEmptyResponse`, `ErrUnexpectedResponse` and `formatUnexpectedResponse`
are referenced by the shown client code but defined in repository files
not present under `src/`; their error kinds follow the spec's taxonomy
(§7): distinguishable error constructors, `UnexpectedResponse` carrying
the status and the structured server messages. -/

/-- Error kinds returned by the attachment client. Constructors are the
spec's taxonomy; `String` payloads carry the underlying error verbatim. -/
inductive JiraError where
  | fileError (e : String)
  | encodingError (e : String)
  | transportError (e : String)
  | emptyResponse
  | unexpectedResponse (status : Nat) (messages : List String)
  | decodeError (e : String)
deriving DecidableEq, Repr

instance {ε α : Type} [DecidableEq ε] [DecidableEq α] : DecidableEq (Except ε α) := fun x y =>
  match x, y with
  | Except.error a, Except.error b =>
    if h : a = b then isTrue (by rw [h])
    else isFalse (by intro hh; cases hh; exact h rfl)
  | Except.error _, Except.ok _ => isFalse (by intro h; cases h)
  | Except.ok _, Except.error _ => isFalse (by intro h; cases h)
  | Except.ok a, Except.ok b =>
    if h : a = b then isTrue (by rw [h])
    else isFalse (by intro hh; cases hh; exact h rfl)

/-- An HTTP response as the client observes it: the status code, the
structured error messages the server's body provides, and the result of
decoding the body as a JSON array of attachments (the standard-library
decoder is modelled by its outcome). -/
structure HttpResponse where
  statusCode : Nat
  errorMessages : List String
  decodeAttachments : Except String (List Attachment)
deriving DecidableEq, Repr

/-- Modelled from the spec: `formatUnexpectedResponse` is defined in a
repository file absent from `src/`; per the spec it builds an
`UnexpectedResponse{status, messages}` error from the response's status
and any structured error messages the server provided. -/
def formatUnexpectedResponse (res : HttpResponse) : JiraError :=
  JiraError.unexpectedResponse res.statusCode res.errorMessages

/-- True exactly on an `unexpectedResponse` error result. -/
def isUnexpectedResponseErr {α : Type} : Except JiraError α → Bool
  | Except.error (JiraError.unexpectedResponse _ _) => true
  | _ => false

/-! ## AttachmentTransport (`part_002`) -/

/-- `uploadAttachment` (response-handling path). The file open and the
multipart encoding are fallible stages preceding the POST; each is
modelled by the outcome of its library calls. `postResult` is the
outcome of `postWithHeaders`: a transport error, or an optional
response (`none` models Go's `res == nil` with no error). The source
checks, in order: transport error, nil response, non-200 status (then
`formatUnexpectedResponse`), JSON decoding of the body. -/
def uploadAttachment (openResult : Except String Unit)
    (encodeResult : Except String Unit)
    (postResult : Except String (Option HttpResponse)) :
    Except JiraError (List Attachment) :=
  match openResult with
  | Except.error e => Except.error (JiraError.fileError e)
  | Except.ok _ =>
    match encodeResult with
    | Except.error e => Except.error (JiraError.encodingError e)
    | Except.ok _ =>
      match postResult with
      | Except.error e => Except.error (JiraError.transportError e)
      | Except.ok none => Except.error JiraError.emptyResponse
      | Except.ok (some res) =>
        if res.statusCode ≠ 200 then Except.error (formatUnexpectedResponse res)
        else
          match res.decodeAttachments with
          | Except.error e => Except.error (JiraError.decodeError e)
          | Except.ok attachments => Except.ok attachments

/-- `deleteAttachment` (response-handling path). `doResult` is the
outcome of the DELETE round-trip. The source checks: transport error,
nil response (`ErrEmptyResponse`), then
`StatusCode != 204 && StatusCode != 200` (then
`formatUnexpectedResponse`); otherwise success. -/
def deleteAttachment (doResult : Except String (Option HttpResponse)) :
    Except JiraError Unit :=
  match doResult with
  | Except.error e => Except.error (JiraError.transportError e)
  | Except.ok none => Except.error JiraError.emptyResponse
  | Except.ok (some res) =>
    if res.statusCode ≠ 204 ∧ res.statusCode ≠ 200 then
      Except.error (formatUnexpectedResponse res)
    else Except.ok ()

/-! ## Endpoint path selection -/

/-- Modelled from the spec: the `baseURLv2` constant lives in a client
file absent from `src/`; its value is fixed by the spec's wire-exact
REST table and the tests (`/rest/api/2`). -/
def baseURLv2 : String := "/rest/api/2"

/-- Modelled from the spec: `baseURLv3` as above (`/rest/api/3`). -/
def baseURLv3 : String := "/rest/api/3"

/-- Modelled from the spec: `apiVersion2` tag constant (absent from
`src/`); only its distinctness from the default matters to the switch. -/
def apiVersion2 : String := "2"

/-- Modelled from the spec: `apiVersion3` tag constant. -/
def apiVersion3 : String := "3"

/-- Request path built by `uploadAttachment`:
`path := "/issue/{key}/attachments"` prefixed by the version's base URL
(the switch treats anything other than `apiVersion2` as v3). -/
def uploadRequestPath (key ver : String) : String :=
  (if ver = apiVersion2 then baseURLv2 else baseURLv3)
    ++ "/issue/" ++ key ++ "/attachments"

/-- Request path built by `deleteAttachment`:
`path := "/attachment/{id}"` prefixed by the version's base URL. -/
def deleteRequestPath (id ver : String) : String :=
  (if ver = apiVersion2 then baseURLv2 else baseURLv3)
    ++ "/attachment/" ++ id

/-- Headers set by `uploadAttachment` on the POST: the multipart
content type and the CSRF-bypass token. -/
def uploadHeaders (contentType : String) : List (String × String) :=
  [("Content-Type", contentType), ("X-Atlassian-Token", "no-check")]

/-- Modelled from the spec: installation flavor (`cloud` vs `local`,
with unset defaulting to cloud); the api-layer proxy that reads it is
absent from `src/`. -/
inductive Installation where
  | cloud
  | local
  | unset
deriving DecidableEq, Repr

/-- Modelled from the spec: flavor `local` selects the v2 API, `cloud`
or unset selects v3. -/
def versionFor : Installation → String
  | Installation.local => apiVersion2
  | _ => apiVersion3

/-- Upload path as a function of the installation flavor. -/
def uploadPathFor (inst : Installation) (key : String) : String :=
  uploadRequestPath key (versionFor inst)

/-- Delete path as a function of the installation flavor. -/
def deletePathFor (inst : Installation) (id : String) : String :=
  deleteRequestPath id (versionFor inst)

/-! ## AuthNegotiator (`applyAuth`, `part_002`) -/

/-- Authentication modes of the client. -/
inductive AuthType where
  | basic
  | bearer
  | mtls
deriving DecidableEq, Repr

/-- The client state `applyAuth` reads and (for `authType`) writes:
`authType` is a nullable pointer in the source. -/
structure Client where
  authType : Option AuthType
  login : String
  token : String
  server : String
deriving DecidableEq, Repr

/-- An outgoing HTTP request: the fields other than `headers` are
carried to state what `applyAuth` leaves untouched. -/
structure Request where
  method : String
  url : String
  body : String
  headers : List (String × String)
deriving DecidableEq, Repr

/-- `req.Header.Add`: append a header entry. -/
def addHeader (req : Request) (k v : String) : Request :=
  { req with headers := req.headers ++ [(k, v)] }

/-- The credential `req.SetBasicAuth` carries; the standard library's
base64 encoding of `login:token` is modelled as the tagged pair. -/
def basicCredential (login token : String) : String :=
  "Basic " ++ login ++ ":" ++ token

/-- `req.SetBasicAuth`: set (replace) the `Authorization` header. -/
def setBasicAuth (req : Request) (login token : String) : Request :=
  { req with headers :=
      req.headers.filter (fun kv => kv.1 ≠ "Authorization")
        ++ [("Authorization", basicCredential login token)] }

/-- `applyAuth`: defaults a nil `authType` to basic (mutating the
client, whose receiver is a pointer), then attaches the mode's
credential to the request. Returns the client and request after the
call. -/
def applyAuth (c : Client) (req : Request) : Client × Request :=
  let c2 := match c.authType with
    | none => { c with authType := some AuthType.basic }
    | some _ => c
  match c2.authType with
  | some AuthType.mtls =>
    (c2, if c2.token ≠ "" then addHeader req "Authorization" ("Bearer " ++ c2.token) else req)
  | some AuthType.bearer =>
    (c2, addHeader req "Authorization" ("Bearer " ++ c2.token))
  | some AuthType.basic =>
    (c2, setBasicAuth req c2.login c2.token)
  | none => (c2, req)

/-! ## StreamDownloader (`DownloadAttachment`, `part_002`) -/

/-- Download-side errors: an underlying I/O or transport error carried
verbatim, or the non-200 failure (`failed to download attachment`,
carrying the response status — the spec's `DownloadFailed{status}`). -/
inductive DlError where
  | ioError (e : String)
  | downloadFailed (status : Nat)
deriving DecidableEq, Repr

/-- A GET response: status code and raw body bytes (as a string). -/
structure DlResponse where
  status : Nat
  body : String
deriving DecidableEq, Repr

/-- Outcome of `io.Copy` into the created file: success, or failure
after writing a prefix of the body. -/
inductive CopyOutcome where
  | success
  | failAfter (written : String) (e : String)
deriving DecidableEq, Repr

/-- The effectful collaborators of one `DownloadAttachment` call, each
modelled by its outcome: `http.NewRequest`, `httpClient.Do`,
`os.Create`, `io.Copy`. -/
structure DlEnv where
  newRequestErr : Option String
  doResult : Except String DlResponse
  createErr : Option String
  copyOutcome : CopyOutcome
deriving DecidableEq, Repr

/-- `DownloadAttachment`: issue the GET, fail on non-200 before any
file is touched, then create the destination and copy the body into
it. `dest` is the destination file's content before the call (`none` =
absent); the second component of the result is its content after. -/
def DownloadAttachment (env : DlEnv) (dest : Option String) :
    Except DlError Unit × Option String :=
  match env.newRequestErr with
  | some e => (Except.error (DlError.ioError e), dest)
  | none =>
    match env.doResult with
    | Except.error e => (Except.error (DlError.ioError e), dest)
    | Except.ok res =>
      if res.status ≠ 200 then
        (Except.error (DlError.downloadFailed res.status), dest)
      else
        match env.createErr with
        | some e => (Except.error (DlError.ioError e), dest)
        | none =>
          match env.copyOutcome with
          | CopyOutcome.success => (Except.ok (), some res.body)
          | CopyOutcome.failAfter written e =>
            (Except.error (DlError.ioError e), some written)

/-! ## Download command (`part_001`) -/

/-- `findAttachmentByID`: scan in order, return the first attachment
whose id matches as a singleton; `cmdutil.Failed` (which terminates the
process and never returns) is modelled as the error case. -/
def findAttachmentByID : List Attachment → String → Except String (List Attachment)
  | [], id => Except.error ("Attachment with ID " ++ id ++ " not found")
  | a :: rest, id =>
    if a.id = id then Except.ok [a] else findAttachmentByID rest id

/-- `findAttachmentByFilename`: scan in order, return the first
attachment whose filename matches as a singleton; not-found terminates
via `cmdutil.Failed`, modelled as the error case. -/
def findAttachmentByFilename : List Attachment → String → Except String (List Attachment)
  | [], filename => Except.error ("Attachment with filename " ++ filename ++ " not found")
  | a :: rest, filename =>
    if a.filename = filename then Except.ok [a]
    else findAttachmentByFilename rest filename

/-- The selection switch of the `download` command: `--all`, then
`--id`, then positional filename, else fail. -/
def selectAttachmentsToDownload (attachments : List Attachment)
    (all : Bool) (id filename : String) : Except String (List Attachment) :=
  if all then Except.ok attachments
  else if id ≠ "" then findAttachmentByID attachments id
  else if filename ≠ "" then findAttachmentByFilename attachments filename
  else Except.error "Please specify --all, --id, or provide a filename"

/-- The content URLs the download loop requests: when selection fails,
`cmdutil.Failed` has already terminated the process, so no download
request is issued and no file is created. -/
def downloadRequestsIssued (attachments : List Attachment)
    (all : Bool) (id filename : String) : List String :=
  match selectAttachmentsToDownload attachments all id filename with
  | Except.error _ => []
  | Except.ok sel => sel.map (fun a => a.content)

/-! ## Helper definitions for statements -/

/-- Sequential concatenation of rendered lines (the writer's output). -/
def joinAll : List String → String
  | [] => ""
  | s :: rest => s ++ joinAll rest

/-- First attachment of the spec's two-row CSV example. -/
def docAttachment : Attachment :=
  { id := "10001", filename := "document.pdf"
    author := { displayName := "John Doe", accountId := "123" }
    created := "2020-12-01T10:00:00.000+0100", size := 1048576
    mimeType := "application/pdf", content := "https://example.com/attachment/10001" }

/-- Second attachment of the spec's two-row CSV example, with a comma
in the filename. -/
def commaAttachment : Attachment :=
  { id := "10002", filename := "file, with comma.txt"
    author := { displayName := "Jane Smith", accountId := "456" }
    created := "2020-12-02T15:30:00.000+0100", size := 524288
    mimeType := "text/plain", content := "https://example.com/attachment/10002" }

/-! ## Theorems -/

/-- C5: for every non-negative byte count, `formatSize` follows the
spec's 1024-step threshold ranges (integer bytes below 1 KB, two
decimal digits with the unit suffix above), and matches the spec's
concrete examples. -/
theorem formatSize_follows_spec :
    (∀ b : Int, 0 ≤ b → formatSize b = formatSizeSpec b)
    ∧ formatSize 500 = "500 B"
    ∧ formatSize 1536 = "1.50 KB"
    ∧ formatSize 2048 = "2.00 KB"
    ∧ formatSize 5242880 = "5.00 MB"
    ∧ formatSize 2147483648 = "2.00 GB" := by
  refine ⟨?_, by decide, by decide, by decide, by decide, by decide⟩
  intro b _
  unfold formatSize formatSizeSpec
  split_ifs <;> first | rfl | omega

/-- Witness for C5 at `b = 1536`. -/
theorem formatSize_follows_spec_witness :
    formatSize 1536 = formatSizeSpec 1536 :=
  formatSize_follows_spec.1 1536 (by decide)

/-- C7: `escapeCSV` wraps the string in double quotes exactly when it
contains a comma, a double quote, or a newline, leaving interior
quotes unescaped; on strings without those characters it is the
identity, hence idempotent. -/
theorem escapeCSV_follows_spec :
    ∀ s : String,
      (containsSpecialChar s = true ↔
        ',' ∈ s.data ∨ dquote ∈ s.data ∨ newline ∈ s.data)
      ∧ (containsSpecialChar s = true →
          escapeCSV s = String.singleton dquote ++ s ++ String.singleton dquote)
      ∧ (containsSpecialChar s = false →
          escapeCSV s = s ∧ escapeCSV (escapeCSV s) = escapeCSV s) := by
  intro s
  refine ⟨?_, ?_, ?_⟩
  · simp only [containsSpecialChar, List.any_eq_true, Bool.or_eq_true, decide_eq_true_eq]
    constructor
    · rintro ⟨c, hc, (h | h) | h⟩ <;> subst h
      · exact Or.inl hc
      · exact Or.inr (Or.inl hc)
      · exact Or.inr (Or.inr hc)
    · rintro (h | h | h)
      · exact ⟨',', h, Or.inl (Or.inl rfl)⟩
      · exact ⟨dquote, h, Or.inl (Or.inr rfl)⟩
      · exact ⟨newline, h, Or.inr rfl⟩
  · intro h
    simp [escapeCSV, h]
  · intro h
    refine ⟨by simp [escapeCSV, h], by simp [escapeCSV, h]⟩

/-- Witness for C7 at `s = "file, with comma.txt"` (wrapped) and the
idempotence side at `s = "document.pdf"`. -/
theorem escapeCSV_follows_spec_witness :
    escapeCSV "file, with comma.txt"
      = String.singleton dquote ++ "file, with comma.txt" ++ String.singleton dquote
    ∧ escapeCSV (escapeCSV "document.pdf") = escapeCSV "document.pdf" :=
  ⟨(escapeCSV_follows_spec "file, with comma.txt").2.1 (by decide),
   ((escapeCSV_follows_spec "document.pdf").2.2 (by decide)).2⟩

/-- C8: `formatDate` is the identity on strings of at most 10
characters and keeps exactly the first 10 characters of longer ones;
it never errors, and matches the spec's examples. -/
theorem formatDate_follows_spec :
    (∀ s : String,
      (s.length ≤ 10 → formatDate s = s)
      ∧ (10 < s.length → formatDate s = s.take 10))
    ∧ formatDate "2020-12-01T10:00:00.000+0100" = "2020-12-01"
    ∧ formatDate "2020" = "2020" := by
  refine ⟨?_, by decide, by decide⟩
  intro s
  constructor
  · intro h
    unfold formatDate
    rw [if_neg (by omega)]
  · intro h
    unfold formatDate
    rw [if_pos (by omega)]

/-- Witness for C8 at a long and a short input. -/
theorem formatDate_follows_spec_witness :
    formatDate "2020-12-01T10:00:00.000+0100"
      = ("2020-12-01T10:00:00.000+0100" : String).take 10
    ∧ formatDate "2020" = "2020" :=
  ⟨(formatDate_follows_spec.1 "2020-12-01T10:00:00.000+0100").2 (by decide),
   (formatDate_follows_spec.1 "2020").1 (by decide)⟩

lemma renderCSV_foldl_eq (attachments : List Attachment) (acc : String) :
    attachments.foldl
      (fun acc a =>
        acc ++ a.id ++ "," ++ escapeCSV a.filename ++ "," ++ toString a.size
          ++ "," ++ escapeCSV a.author.displayName ++ "," ++ a.created ++ "\n")
      acc
      = acc ++ joinAll (attachments.map csvLineSpec) := by
  induction attachments generalizing acc with
  | nil => simp [joinAll]
  | cons a rest ih =>
    simp only [List.foldl_cons, List.map_cons, joinAll, ih, csvLineSpec]
    simp [String.append_assoc]

set_option maxRecDepth 16384 in
/-- C6: `renderCSV` emits exactly the header line followed by one line
per attachment in sequence order — raw id, escaped filename, the size
verbatim as an integer, escaped author display name, and the created
timestamp verbatim — and reproduces the spec's two-row example
literally. -/
theorem renderCSV_follows_spec :
    (∀ attachments : List Attachment,
      renderCSV attachments
        = "ID,FILENAME,SIZE,AUTHOR,CREATED\n"
          ++ joinAll (attachments.map csvLineSpec))
    ∧ renderCSV [docAttachment, commaAttachment]
        = "ID,FILENAME,SIZE,AUTHOR,CREATED\n"
          ++ "10001,document.pdf,1048576,John Doe,2020-12-01T10:00:00.000+0100\n"
          ++ "10002,\"file, with comma.txt\",524288,Jane Smith,2020-12-02T15:30:00.000+0100\n" := by
  refine ⟨?_, by decide⟩
  intro attachments
  exact renderCSV_foldl_eq attachments "ID,FILENAME,SIZE,AUTHOR,CREATED\n"

/-- Response with status 200 whose body is not a JSON array of
attachments (the decoder fails). -/
def badJsonResponse : HttpResponse :=
  { statusCode := 200, errorMessages := [], decodeAttachments := Except.error "invalid json" }

/-- C1 counterexample: on a 200 response whose body fails to decode,
`uploadAttachment` returns the decoder's error, not an
`UnexpectedResponse`; the claim's decode-failure clause is false on the
code. -/
theorem uploadAttachment_decode_counterexample :
    uploadAttachment (Except.ok ()) (Except.ok ()) (Except.ok (some badJsonResponse))
      = Except.error (JiraError.decodeError "invalid json")
    ∧ isUnexpectedResponseErr
        (uploadAttachment (Except.ok ()) (Except.ok ()) (Except.ok (some badJsonResponse)))
      = false :=
  ⟨rfl, rfl⟩

/-- C1 (amended): a non-200 status yields an `UnexpectedResponse`
carrying the status and the server's structured messages, with no
attachments; a 200 status whose body fails to decode yields the decode
error itself (again no attachments), not an `UnexpectedResponse`. -/
theorem uploadAttachment_response_errors :
    ∀ res : HttpResponse,
      (res.statusCode ≠ 200 →
        uploadAttachment (Except.ok ()) (Except.ok ()) (Except.ok (some res))
          = Except.error (JiraError.unexpectedResponse res.statusCode res.errorMessages))
      ∧ (∀ e, res.statusCode = 200 → res.decodeAttachments = Except.error e →
        uploadAttachment (Except.ok ()) (Except.ok ()) (Except.ok (some res))
          = Except.error (JiraError.decodeError e)) := by
  intro res
  constructor
  · intro h
    simp [uploadAttachment, h, formatUnexpectedResponse]
  · intro e h hd
    simp [uploadAttachment, h, hd]

/-- Witness for C1 (amended) at a 404 with one structured message. -/
theorem uploadAttachment_response_errors_witness :
    uploadAttachment (Except.ok ()) (Except.ok ())
        (Except.ok (some ⟨404, ["Issue does not exist"], Except.error "no body"⟩))
      = Except.error (JiraError.unexpectedResponse 404 ["Issue does not exist"]) :=
  (uploadAttachment_response_errors ⟨404, ["Issue does not exist"], Except.error "no body"⟩).1
    (by decide)

/-- C3: `deleteAttachment` succeeds exactly when a response is present
with status 204 or 200; any other status yields an `UnexpectedResponse`
with the status and messages; a present-but-nil response with no
transport error yields `EmptyResponse`, which differs from every
`UnexpectedResponse`. -/
theorem deleteAttachment_follows_spec :
    (∀ d : Except String (Option HttpResponse),
      deleteAttachment d = Except.ok () ↔
        ∃ res, d = Except.ok (some res)
          ∧ (res.statusCode = 204 ∨ res.statusCode = 200))
    ∧ (∀ res : HttpResponse, res.statusCode ≠ 204 → res.statusCode ≠ 200 →
        deleteAttachment (Except.ok (some res))
          = Except.error (JiraError.unexpectedResponse res.statusCode res.errorMessages))
    ∧ deleteAttachment (Except.ok none) = Except.error JiraError.emptyResponse
    ∧ (∀ s m, JiraError.emptyResponse ≠ JiraError.unexpectedResponse s m) := by
  refine ⟨?_, ?_, rfl, ?_⟩
  · intro d
    match d with
    | Except.error e => simp [deleteAttachment]
    | Except.ok none => simp [deleteAttachment]
    | Except.ok (some res) =>
      by_cases h204 : res.statusCode = 204
      · simp [deleteAttachment, h204]
      · by_cases h200 : res.statusCode = 200
        · simp [deleteAttachment, h204, h200]
        · simp [deleteAttachment, h204, h200]
  · intro res h204 h200
    simp [deleteAttachment, h204, h200, formatUnexpectedResponse]
  · intro s m h
    cases h

/-- Witness for C3: a 404 delete response surfaces as
`UnexpectedResponse`, and a 204 succeeds. -/
theorem deleteAttachment_follows_spec_witness :
    deleteAttachment (Except.ok (some ⟨404, ["Attachment not found"], Except.error ""⟩))
      = Except.error (JiraError.unexpectedResponse 404 ["Attachment not found"])
    ∧ deleteAttachment (Except.ok (some ⟨204, [], Except.error ""⟩)) = Except.ok () :=
  ⟨deleteAttachment_follows_spec.2.1 ⟨404, ["Attachment not found"], Except.error ""⟩
      (by decide) (by decide),
   (deleteAttachment_follows_spec.1 (Except.ok (some ⟨204, [], Except.error ""⟩))).2
      ⟨⟨204, [], Except.error ""⟩, rfl, Or.inl rfl⟩⟩

/-- C2: on a 200 response with successful create and copy, the
destination file ends with exactly the response body and the call
succeeds; on a non-200 status the call fails with the status-carrying
download error and the destination is untouched; a create or copy
failure propagates the underlying I/O error unchanged and never
reports success. -/
theorem DownloadAttachment_follows_spec :
    ∀ (env : DlEnv) (dest : Option String) (res : DlResponse),
      env.newRequestErr = none → env.doResult = Except.ok res →
      ((res.status = 200 → env.createErr = none →
          env.copyOutcome = CopyOutcome.success →
          DownloadAttachment env dest = (Except.ok (), some res.body))
      ∧ (res.status ≠ 200 →
          DownloadAttachment env dest
            = (Except.error (DlError.downloadFailed res.status), dest))
      ∧ (∀ e, res.status = 200 → env.createErr = some e →
          DownloadAttachment env dest = (Except.error (DlError.ioError e), dest))
      ∧ (∀ w e, res.status = 200 → env.createErr = none →
          env.copyOutcome = CopyOutcome.failAfter w e →
          DownloadAttachment env dest
            = (Except.error (DlError.ioError e), some w))) := by
  intro env dest res hreq hdo
  refine ⟨?_, ?_, ?_, ?_⟩
  · intro h200 hcreate hcopy
    simp [DownloadAttachment, hreq, hdo, h200, hcreate, hcopy]
  · intro h200
    simp [DownloadAttachment, hreq, hdo, h200]
  · intro e h200 hcreate
    simp [DownloadAttachment, hreq, hdo, h200, hcreate]
  · intro w e h200 hcreate hcopy
    simp [DownloadAttachment, hreq, hdo, h200, hcreate, hcopy]

/-- Witness for C2: the spec's test body is written on a 200; a 404
leaves an absent destination absent. -/
theorem DownloadAttachment_follows_spec_witness :
    DownloadAttachment
        ⟨none, Except.ok ⟨200, "This is test attachment content"⟩, none, CopyOutcome.success⟩
        none
      = (Except.ok (), some "This is test attachment content")
    ∧ DownloadAttachment
        ⟨none, Except.ok ⟨404, ""⟩, none, CopyOutcome.success⟩ none
      = (Except.error (DlError.downloadFailed 404), none) :=
  ⟨(DownloadAttachment_follows_spec
      ⟨none, Except.ok ⟨200, "This is test attachment content"⟩, none, CopyOutcome.success⟩
      none ⟨200, "This is test attachment content"⟩ rfl rfl).1 rfl rfl rfl,
   (DownloadAttachment_follows_spec
      ⟨none, Except.ok ⟨404, ""⟩, none, CopyOutcome.success⟩
      none ⟨404, ""⟩ rfl rfl).2.1 (by decide)⟩

/-- A client whose auth type is unset (nil pointer in the source). -/
def unsetAuthClient : Client :=
  { authType := none, login := "jdoe", token := "secret", server := "https://example.test" }

/-- A bare outgoing request. -/
def bareRequest : Request :=
  { method := "GET", url := "https://example.test/a", body := "", headers := [] }

/-- C9 counterexample: `applyAuth` on a client with unset auth type
writes the basic default back into the client, so the client
configuration is not left unchanged. -/
theorem applyAuth_mutates_client_counterexample :
    (applyAuth unsetAuthClient bareRequest).1 ≠ unsetAuthClient := by
  decide

/-- C9 (amended): `applyAuth` never fails; it changes nothing in the
request beyond its headers, and changes nothing in the client except
that an unset auth type is defaulted to basic (a client whose auth
type is already set is returned unchanged). -/
theorem applyAuth_frame :
    ∀ (c : Client) (req : Request),
      ((applyAuth c req).1.login = c.login
        ∧ (applyAuth c req).1.token = c.token
        ∧ (applyAuth c req).1.server = c.server
        ∧ (applyAuth c req).1.authType = some (c.authType.getD AuthType.basic))
      ∧ (c.authType ≠ none → (applyAuth c req).1 = c)
      ∧ ((applyAuth c req).2.method = req.method
        ∧ (applyAuth c req).2.url = req.url
        ∧ (applyAuth c req).2.body = req.body) := by
  intro c req
  rcases c with ⟨ty, l, t, sv⟩
  cases ty with
  | none =>
    refine ⟨⟨rfl, rfl, rfl, rfl⟩, ?_, ?_⟩
    · intro h
      exact absurd rfl h
    · simp only [applyAuth]
      by_cases h : t ≠ ""
      · simp [h, addHeader, setBasicAuth]
      · simp [h, addHeader, setBasicAuth]
  | some a =>
    cases a with
    | basic =>
      exact ⟨⟨rfl, rfl, rfl, rfl⟩, fun _ => rfl, by simp [applyAuth, setBasicAuth]⟩
    | bearer =>
      exact ⟨⟨rfl, rfl, rfl, rfl⟩, fun _ => rfl, by simp [applyAuth, addHeader]⟩
    | mtls =>
      refine ⟨⟨rfl, rfl, rfl, rfl⟩, fun _ => rfl, ?_⟩
      simp only [applyAuth]
      by_cases h : t ≠ ""
      · simp [h, addHeader]
      · simp [h, addHeader]

/-- Witness for C9 (amended) at a bearer-mode client. -/
theorem applyAuth_frame_witness :
    (applyAuth { unsetAuthClient with authType := some AuthType.bearer } bareRequest).1
      = { unsetAuthClient with authType := some AuthType.bearer } :=
  (applyAuth_frame { unsetAuthClient with authType := some AuthType.bearer } bareRequest).2.1
    (by decide)

/-- C4: request path selection is a pure function of installation
flavor — cloud or unset gives the v3 upload and delete paths, local
gives the v2 counterparts — and every upload request's header set
carries `X-Atlassian-Token: no-check`. -/
theorem attachmentEndpoints_follow_spec :
    (∀ key : String,
      uploadPathFor Installation.cloud key = "/rest/api/3/issue/" ++ key ++ "/attachments"
      ∧ uploadPathFor Installation.unset key = "/rest/api/3/issue/" ++ key ++ "/attachments"
      ∧ uploadPathFor Installation.local key = "/rest/api/2/issue/" ++ key ++ "/attachments")
    ∧ (∀ id : String,
      deletePathFor Installation.cloud id = "/rest/api/3/attachment/" ++ id
      ∧ deletePathFor Installation.unset id = "/rest/api/3/attachment/" ++ id
      ∧ deletePathFor Installation.local id = "/rest/api/2/attachment/" ++ id)
    ∧ (∀ contentType : String,
      ("X-Atlassian-Token", "no-check") ∈ uploadHeaders contentType) := by
  refine ⟨fun key => ⟨?_, ?_, ?_⟩, fun id => ⟨?_, ?_, ?_⟩, fun contentType => ?_⟩
  · rfl
  · rfl
  · rfl
  · rfl
  · rfl
  · rfl
  · simp [uploadHeaders]

lemma findAttachmentByFilename_eq_find (attachments : List Attachment) (fn : String) :
    findAttachmentByFilename attachments fn
      = match attachments.find? (fun a => a.filename = fn) with
        | some a => Except.ok [a]
        | none => Except.error ("Attachment with filename " ++ fn ++ " not found") := by
  induction attachments with
  | nil => rfl
  | cons a rest ih =>
    by_cases h : a.filename = fn
    · simp [findAttachmentByFilename, List.find?_cons, h]
    · simp [findAttachmentByFilename, List.find?_cons, h, ih]

lemma findAttachmentByID_eq_find (attachments : List Attachment) (id : String) :
    findAttachmentByID attachments id
      = match attachments.find? (fun a => a.id = id) with
        | some a => Except.ok [a]
        | none => Except.error ("Attachment with ID " ++ id ++ " not found") := by
  induction attachments with
  | nil => rfl
  | cons a rest ih =>
    by_cases h : a.id = id
    · simp [findAttachmentByID, List.find?_cons, h]
    · simp [findAttachmentByID, List.find?_cons, h, ih]

/-- C10: selection by filename or id yields at most a singleton — the
first match in tracker order — and when nothing matches, the command
fails before any download request is issued. -/
theorem download_selection_follows_spec :
    (∀ (attachments : List Attachment) (fn : String) (sel : List Attachment),
      findAttachmentByFilename attachments fn = Except.ok sel →
        ∃ a, sel = [a] ∧ attachments.find? (fun x => x.filename = fn) = some a)
    ∧ (∀ (attachments : List Attachment) (id : String) (sel : List Attachment),
      findAttachmentByID attachments id = Except.ok sel →
        ∃ a, sel = [a] ∧ attachments.find? (fun x => x.id = id) = some a)
    ∧ (∀ (attachments : List Attachment) (fn : String) (a : Attachment),
      attachments.find? (fun x => x.filename = fn) = some a → fn ≠ "" →
        downloadRequestsIssued attachments false "" fn = [a.content])
    ∧ (∀ (attachments : List Attachment) (fn : String),
      (∀ a ∈ attachments, a.filename ≠ fn) →
        downloadRequestsIssued attachments false "" fn = [])
    ∧ (∀ (attachments : List Attachment) (id : String),
      (∀ a ∈ attachments, a.id ≠ id) →
        downloadRequestsIssued attachments false id "" = []) := by
  refine ⟨?_, ?_, ?_, ?_, ?_⟩
  · intro attachments fn sel h
    rw [findAttachmentByFilename_eq_find] at h
    cases hf : attachments.find? (fun x => x.filename = fn) with
    | none => rw [hf] at h; cases h
    | some a =>
      rw [hf] at h
      exact ⟨a, by cases h; rfl, rfl⟩
  · intro attachments id sel h
    rw [findAttachmentByID_eq_find] at h
    cases hf : attachments.find? (fun x => x.id = id) with
    | none => rw [hf] at h; cases h
    | some a =>
      rw [hf] at h
      exact ⟨a, by cases h; rfl, rfl⟩
  · intro attachments fn a hfind hfn
    simp only [downloadRequestsIssued, selectAttachmentsToDownload]
    rw [if_neg (by simp), if_neg (by simp), if_pos hfn,
      findAttachmentByFilename_eq_find, hfind]
    rfl
  · intro attachments fn hnone
    simp only [downloadRequestsIssued, selectAttachmentsToDownload]
    rw [if_neg (by simp), if_neg (by simp)]
    by_cases hfn : fn ≠ ""
    · rw [if_pos hfn, findAttachmentByFilename_eq_find]
      have : attachments.find? (fun x => x.filename = fn) = none := by
        rw [List.find?_eq_none]
        intro a ha
        simpa using hnone a ha
      rw [this]
    · rw [if_neg hfn]
  · intro attachments id hnone
    simp only [downloadRequestsIssued, selectAttachmentsToDownload]
    rw [if_neg (by simp)]
    by_cases hid : id ≠ ""
    · rw [if_pos hid, findAttachmentByID_eq_find]
      have : attachments.find? (fun x => x.id = id) = none := by
        rw [List.find?_eq_none]
        intro a ha
        simpa using hnone a ha
      rw [this]
    · rw [if_neg hid, if_neg (by simp)]

/-- Two attachments sharing one filename, distinct ids and contents. -/
def dupOne : Attachment :=
  { id := "20001", filename := "dup.txt"
    author := { displayName := "John Doe", accountId := "123" }
    created := "2020-12-01T10:00:00.000+0100", size := 10
    mimeType := "text/plain", content := "https://example.com/attachment/20001" }

/-- Second attachment with the same filename as `dupOne`. -/
def dupTwo : Attachment :=
  { id := "20002", filename := "dup.txt"
    author := { displayName := "Jane Smith", accountId := "456" }
    created := "2020-12-02T15:30:00.000+0100", size := 20
    mimeType := "text/plain", content := "https://example.com/attachment/20002" }

/-- Witness for C10: with two attachments sharing the filename, only
the first one's content URL is downloaded; with no match, nothing is. -/
theorem download_selection_follows_spec_witness :
    downloadRequestsIssued [dupOne, dupTwo] false "" "dup.txt"
      = ["https://example.com/attachment/20001"]
    ∧ downloadRequestsIssued [dupOne, dupTwo] false "" "missing.txt" = [] :=
  ⟨download_selection_follows_spec.2.2.1 [dupOne, dupTwo] "dup.txt" dupOne
      (by decide) (by decide),
   download_selection_follows_spec.2.2.2.1 [dupOne, dupTwo] "missing.txt"
      (by decide)⟩

end JiraCli
